import Mathlib

/-!
# Verification of `mdload.py`

A shallow embedding of the media-download orchestrator `src/mdload.py`
together with proofs about its entry-classification and
download-orchestration pipeline.

Modelling conventions:
* Python `dict` metadata objects returned by the external resolver are
  modelled by the inductive type `Info`, carrying exactly the fields the
  program reads (`formats`, `is_live`, `width`, `height`, `webpage_url`,
  `url`, `title`, `id`, `entries`).  A missing key and a `None` value are
  both modelled by `none`.
* Python truthiness is modelled explicitly: an `Option String` is truthy
  when it is `some s` with `s ≠ ""`; an optional list is truthy when it is
  `some` of a non-empty list; an optional `Nat` is truthy when non-zero.
* The external `yt_dlp.YoutubeDL` capability is an `Oracle` parameter with
  a non-downloading query `extract` (`extract_info(..., download=False)`)
  and a `download` operation, each of which may raise (`Except.error`)
  carrying the exception text.  A falsy result of `extract_info` (Python
  `None`, or an empty dict) is modelled by `Except.ok none`.
* Side effects (stdout, stderr, calls into the oracle) are recorded in a
  `Trace` value returned by the embedded functions.
-/

set_option autoImplicit false

/-- One format descriptor from a metadata object's `formats` list; the
program only ever reads its `vcodec` field (`f.get('vcodec')`). -/
structure Format where
  vcodec : Option String
deriving DecidableEq, Repr

/-- A metadata object (`info dict`) as far as `mdload.py` reads it.  Field
order: `formats`, `is_live`, `width`, `height`, `webpage_url`, `url`,
`title`, `id`, `entries`.  `entries` may itself hold `none` children
(null playlist slots). -/
inductive Info where
  | mk : Option (List Format) → Option Bool → Option Nat → Option Nat →
         Option String → Option String → Option String → Option String →
         Option (List (Option Info)) → Info

/-- `info.get('formats')`. -/
def Info.formats : Info → Option (List Format)
  | .mk f _ _ _ _ _ _ _ _ => f

/-- `info.get('is_live')`. -/
def Info.is_live : Info → Option Bool
  | .mk _ l _ _ _ _ _ _ _ => l

/-- `info.get('width')`. -/
def Info.width : Info → Option Nat
  | .mk _ _ w _ _ _ _ _ _ => w

/-- `info.get('height')`. -/
def Info.height : Info → Option Nat
  | .mk _ _ _ h _ _ _ _ _ => h

/-- `info.get('webpage_url')`. -/
def Info.webpage_url : Info → Option String
  | .mk _ _ _ _ w _ _ _ _ => w

/-- `info.get('url')`. -/
def Info.url : Info → Option String
  | .mk _ _ _ _ _ u _ _ _ => u

/-- `info.get('title')`. -/
def Info.title : Info → Option String
  | .mk _ _ _ _ _ _ t _ _ => t

/-- `info.get('id')`. -/
def Info.id : Info → Option String
  | .mk _ _ _ _ _ _ _ i _ => i

/-- `info.get('entries')`. -/
def Info.entries : Info → Option (List (Option Info))
  | .mk _ _ _ _ _ _ _ _ e => e

/-- Python truthiness of an optional string: `None` and `''` are falsy. -/
def truthyS : Option String → Bool
  | none => false
  | some s => s ≠ ""

/-- Python `a or b` on optional strings: yields `a` when `a` is truthy,
otherwise yields `b` verbatim. -/
def pyOrS (a b : Option String) : Option String :=
  if truthyS a then a else b

/-- Python truthiness of an optional header map: `None` and `{}` are falsy. -/
def truthyH : Option (List (String × String)) → Bool
  | none => false
  | some l => l ≠ []

/-- Python truthiness of an optional integer: `None` and `0` are falsy. -/
def truthyN : Option Nat → Bool
  | none => false
  | some n => n ≠ 0

/-- Python truthiness of an optional bool: only `True` is truthy. -/
def truthyB : Option Bool → Bool
  | none => false
  | some b => b

/-- Python `x or []` for the optional `formats` list
(`info.get('formats') or []`, mdload.py line 55). -/
def pyOrNilL (a : Option (List Format)) : List Format :=
  match a with
  | none => []
  | some l => if l = [] then [] else l

/-- The test `vcodec and vcodec != 'none'` from mdload.py line 58:
the `vcodec` value must be truthy (present, non-empty) and differ from
the sentinel `"none"`. -/
def vcodecSignalsVideo : Option String → Bool
  | none => false
  | some s => !(s == "") && !(s == "none")

/-- `has_video` (mdload.py lines 49-62): scan `formats` for a format whose
`vcodec` is truthy and not `"none"`; otherwise fall back to the
`is_live` / `width` / `height` truthiness check. -/
def has_video (info : Info) : Bool :=
  let formats := pyOrNilL info.formats
  if formats.any (fun f => vcodecSignalsVideo f.vcodec) then true
  else if truthyB info.is_live || truthyN info.width || truthyN info.height then true
  else false

/-- A yt-dlp postprocessor directive, as the dicts literally written in
mdload.py lines 169-174 and 180-186. -/
inductive PP where
  /-- `{'key': 'FFmpegVideoConvertor', 'preferedformat': ...}` -/
  | videoConvertor (preferedformat : String)
  /-- `{'key': 'FFmpegExtractAudio', 'preferredcodec': ..., 'preferredquality': ...}` -/
  | extractAudio (preferredcodec : String) (preferredquality : String)
deriving DecidableEq, Repr

/-- A YoutubeDL options dict as assembled by `mdload.py`; a key that the
program may leave out of the dict is an `Option` field (`none` = key
absent). -/
structure Opts where
  quiet : Bool
  no_warnings : Bool
  outtmpl : String
  ignoreerrors : Bool
  cookiefile : Option String
  username : Option String
  password : Option String
  http_headers : Option (List (String × String))
  format : Option String
  merge_output_format : Option String
  postprocessors : Option (List PP)
deriving DecidableEq, Repr

/-- `os.path.join(outdir, t)` for the fixed relative template `t`
(non-empty, not starting with a separator). -/
def pathJoin (outdir t : String) : String :=
  if outdir = "" then t
  else if outdir.endsWith "/" then outdir ++ t
  else outdir ++ "/" ++ t

/-- `build_base_opts` (mdload.py lines 64-98): the always-set keys plus the
conditionally-set auth/network keys (`if cookiefile: ...` etc., Python
truthiness). -/
def build_base_opts (outdir : String) (quiet : Bool)
    (cookiefile username password : Option String)
    (headers : Option (List (String × String))) : Opts :=
  { quiet := quiet
    no_warnings := quiet
    outtmpl := pathJoin outdir "%(title)s - %(id)s.%(ext)s"
    ignoreerrors := true
    cookiefile := if truthyS cookiefile then cookiefile else none
    username := if truthyS username then username else none
    password := if truthyS password then password else none
    http_headers := if truthyH headers then headers else none
    format := none
    merge_output_format := none
    postprocessors := none }

/-- The `opts.update({...})` for a VIDEO entry (mdload.py lines 165-175). -/
def videoOpts (base : Opts) : Opts :=
  { base with
    format := some "bestvideo+bestaudio/best"
    merge_output_format := some "mp4"
    postprocessors := some [PP.videoConvertor "mp4"] }

/-- The `opts.update({...})` for an AUDIO entry (mdload.py lines 178-187). -/
def audioOpts (base : Opts) : Opts :=
  { base with
    format := some "bestaudio/best"
    postprocessors := some [PP.extractAudio "mp3" "192"] }

/-- The external `YoutubeDL` capability: `extract` models
`extract_info(x, download=False)` (raising = `Except.error` with the
exception text, a falsy result = `ok none`); `download` models
`ydl.download(urls)`.  Real yt-dlp behaviour does not depend on the
logging options, so the oracle sees only the query argument; the options
handed over by the program are recorded in the `Trace`. -/
structure Oracle where
  extract : Option String → Except String (Option Info)
  download : List (Option String) → Except String Unit

/-- One line printed to stdout by `download_entries`, carrying exactly the
data interpolated into it. -/
inductive OutEv where
  /-- `Processando: {title}` (line 144) -/
  | processing (title : String)
  /-- ` -> Tipo detectado: VÍDEO. ...` (line 164) -/
  | typeVideo
  /-- ` -> Tipo detectado: ÁUDIO. ...` (line 177) -/
  | typeAudio
  /-- ` --> Concluído.` (line 193) -/
  | done
deriving DecidableEq, Repr

/-- One line printed to stderr by `download_entries`, carrying exactly the
data interpolated into it. -/
inductive ErrEv where
  /-- `Erro ao extrair informações iniciais da URL: {e}` (line 122) -/
  | errInitialExtract (msg : String)
  /-- `Nenhuma informação foi obtida da URL.` (line 126) -/
  | errNoInfo
  /-- `Erro ao analisar formats do item: {e}. Tentando fallback assumindo vídeo.` (line 157) -/
  | errAnalyze (msg : String)
  /-- `Erro durante o download/processing: {e}` (line 195) -/
  | errDownload (msg : String)
deriving DecidableEq, Repr

/-- The data interpolated into a stderr line (used to ask whether a given
string, e.g. an entry title, is part of a logged error). -/
def ErrEv.payload : ErrEv → List String
  | .errInitialExtract m => [m]
  | .errNoInfo => []
  | .errAnalyze m => [m]
  | .errDownload m => [m]

/-- Recorded observable behaviour of one run of the pipeline: stdout
lines, stderr lines, the non-downloading `extract_info` queries issued
(argument and options), and the `download` invocations issued (url list
and options). -/
structure Trace where
  out : List OutEv := []
  err : List ErrEv := []
  extractCalls : List (Option String × Opts) := []
  downloadCalls : List (List (Option String) × Opts) := []
deriving DecidableEq, Repr

/-- Sequential composition of traces. -/
def Trace.append (t u : Trace) : Trace :=
  { out := t.out ++ u.out
    err := t.err ++ u.err
    extractCalls := t.extractCalls ++ u.extractCalls
    downloadCalls := t.downloadCalls ++ u.downloadCalls }

/-- `entry_url = entry.get('webpage_url') or entry.get('url')` (line 142). -/
def entryUrl (e : Info) : Option String :=
  pyOrS e.webpage_url e.url

/-- `title = entry.get('title') or entry.get('id') or 'untitled'` (line 143). -/
def entryTitle (e : Info) : String :=
  match pyOrS e.title e.id with
  | some s => if s = "" then "untitled" else s
  | none => "untitled"

/-- The exception text of `has_video(None)` — calling `.get` on `None`
after a detail refresh that returned a falsy result (modelled message,
apostrophes elided). -/
def noneGetMsg : String := "NoneType object has no attribute get"

/-- The classification step of the per-entry loop (mdload.py lines
147-158): when the entry's `formats` is truthy, classify the entry
itself; otherwise re-query the oracle with
`entry_url or entry.get('id')` and classify the detailed result,
falling back to VIDEO (with an `errAnalyze` line) when that raises —
including the `AttributeError` from `has_video(None)` on a falsy
refresh result.  Returns (stderr lines, extract queries issued,
`is_video`). -/
def classifyStep (o : Oracle) (base : Opts) (entry : Info) :
    List ErrEv × List (Option String × Opts) × Bool :=
  match entry.formats with
  | some (_ :: _) => ([], [], has_video entry)
  | _ =>
      let q := pyOrS (entryUrl entry) entry.id
      match o.extract q with
      | .error m => ([ErrEv.errAnalyze m], [(q, base)], true)
      | .ok none => ([ErrEv.errAnalyze noneGetMsg], [(q, base)], true)
      | .ok (some d) => ([], [(q, base)], has_video d)

/-- One iteration of the per-entry loop (mdload.py lines 139-195):
classify (with detail refresh), build the per-kind options on top of the
base options, invoke `download([entry_url])`, and log an `errDownload`
line when the download raises. -/
def processEntry (o : Oracle) (outdir : String) (quiet : Bool)
    (cf un pw : Option String) (hd : Option (List (String × String)))
    (entry : Info) : Trace :=
  let base := build_base_opts outdir quiet cf un pw hd
  let r := classifyStep o base entry
  let opts := if r.2.2 then videoOpts base else audioOpts base
  let ev := if r.2.2 then OutEv.typeVideo else OutEv.typeAudio
  match o.download [entryUrl entry] with
  | .ok _ =>
      { out := [OutEv.processing (entryTitle entry), ev, OutEv.done]
        err := r.1
        extractCalls := r.2.1
        downloadCalls := [([entryUrl entry], opts)] }
  | .error m =>
      { out := [OutEv.processing (entryTitle entry), ev]
        err := r.1 ++ [ErrEv.errDownload m]
        extractCalls := r.2.1
        downloadCalls := [([entryUrl entry], opts)] }

/-- The per-entry loop over the resolved entries. -/
def processEntries (o : Oracle) (outdir : String) (quiet : Bool)
    (cf un pw : Option String) (hd : Option (List (String × String))) :
    List Info → Trace
  | [] => {}
  | e :: es =>
      Trace.append (processEntry o outdir quiet cf un pw hd e)
        (processEntries o outdir quiet cf un pw hd es)

/-- Entry normalization (mdload.py lines 129-136): when
`initial_info.get('entries')` is truthy (present, non-empty), keep its
non-null children in source order; otherwise the single object itself. -/
def normalizeEntries (info : Info) : List Info :=
  match info.entries with
  | some (e :: es) => (e :: es).filterMap id
  | _ => [info]

/-- `download_entries` (mdload.py lines 100-195).  `info_or_url` is either
an already-extracted metadata object (`Sum.inl`) or a URL (`Sum.inr`);
for a URL the initial non-downloading query is issued first and a raise
or falsy result aborts the run with the corresponding stderr line. -/
def download_entries (o : Oracle) (info_or_url : Sum Info String)
    (outdir : String) (verbose : Bool)
    (cookiefile username password : Option String)
    (headers : Option (List (String × String))) : Trace :=
  let quiet := !verbose
  let base := build_base_opts outdir quiet cookiefile username password headers
  match info_or_url with
  | .inl info =>
      processEntries o outdir quiet cookiefile username password headers
        (normalizeEntries info)
  | .inr u =>
      match o.extract (some u) with
      | .error m =>
          { err := [ErrEv.errInitialExtract m], extractCalls := [(some u, base)] }
      | .ok none =>
          { err := [ErrEv.errNoInfo], extractCalls := [(some u, base)] }
      | .ok (some info) =>
          Trace.append { extractCalls := [(some u, base)] }
            (processEntries o outdir quiet cookiefile username password headers
              (normalizeEntries info))

/-- A decoded JSON value as produced by `json.loads` (numbers restricted
to integers; no spec claim involves fractional header values). -/
inductive J where
  | null
  | bool (b : Bool)
  | num (n : Int)
  | str (s : String)
  | arr (xs : List J)
  | obj (kvs : List (String × J))

mutual

/-- Python `str()` of a decoded JSON value, as applied to header-map
values in `parse_headers`.  Scalars follow CPython exactly
(`None`/`True`/`False`, integer repr, the string itself); the rendering
of nested containers is structural and simplified (no quoting of nested
strings), which no claim exercises. -/
def pyStr : J → String
  | .null => "None"
  | .bool true => "True"
  | .bool false => "False"
  | .num n => toString n
  | .str s => s
  | .arr xs => "[" ++ pyStrList xs ++ "]"
  | .obj kvs => "\x7b" ++ pyStrObj kvs ++ "\x7d"

def pyStrList : List J → String
  | [] => ""
  | [x] => pyStr x
  | x :: y :: xs => pyStr x ++ ", " ++ pyStrList (y :: xs)

def pyStrObj : List (String × J) → String
  | [] => ""
  | [kv] => kv.1 ++ ": " ++ pyStr kv.2
  | kv :: kv' :: kvs => kv.1 ++ ": " ++ pyStr kv.2 ++ ", " ++ pyStrObj (kv' :: kvs)

end

/-- Assignment into a Python dict: replacing an existing key keeps its
position, a new key goes to the end. -/
def upsert (k v : String) : List (String × String) → List (String × String)
  | [] => [(k, v)]
  | (k', v') :: t => if k' = k then (k, v) :: t else (k', v') :: upsert k v t

/-- The dict comprehension `{str(k): str(v) for k, v in parsed.items()}`
(mdload.py line 41); keys of a decoded JSON object are already strings. -/
def dictComp (kvs : List (String × J)) : List (String × String) :=
  kvs.foldl (fun acc kv => upsert kv.1 (pyStr kv.2) acc) []

/-- `parse_headers` (mdload.py lines 30-47), with `json.loads` supplied as
the external `loads` capability (`Except.error` = `JSONDecodeError`).
A falsy argument (absent or empty string) short-circuits to `None`
before any JSON parsing; a decoded non-object also yields `None` (after
printing an error). -/
def parse_headers (loads : String → Except String J)
    (headers_str : Option String) : Option (List (String × String)) :=
  match headers_str with
  | none => none
  | some s =>
      if s = "" then none
      else
        match loads s with
        | .ok (.obj kvs) => some (dictComp kvs)
        | .ok _ => none
        | .error _ => none

/-- The parsed command line of `mdload.py` (`main`, lines 201-213). -/
structure CliArgs where
  url : String
  outdir : String := "downloads"
  yes : Bool := false
  verbose : Bool := false
  cookies : Option String := none
  username : Option String := none
  password : Option String := none
  headersArg : Option String := none

/-- Outcome of `main`: either `sys.exit(code)` before the pipeline ran, or
the pipeline ran and produced a trace. -/
inductive RunResult where
  | exited (code : Nat)
  | completed (t : Trace)
deriving DecidableEq

/-- `main` (mdload.py lines 201-248) from the point the arguments are
parsed: header parsing and its abort check (lines 220-223), the consent
prompt (lines 231-235, `consentAnswer` being the raw `input()` line),
the cookie-file existence check (lines 238-241), then
`download_entries` on the URL.  `cookieIsFile` models
`os.path.isfile`, `abspath` models `os.path.abspath`. -/
def mainRun (loads : String → Except String J) (o : Oracle)
    (consentAnswer : String) (cookieIsFile : String → Bool)
    (abspath : String → String) (a : CliArgs) : RunResult :=
  let outdir := abspath a.outdir
  let headers := parse_headers loads a.headersArg
  if truthyS a.headersArg && headers.isNone then .exited 1
  else if !a.yes && !(consentAnswer.trim.toLower = "y" ∨ consentAnswer.trim.toLower = "yes" : Bool) then
    .exited 1
  else if truthyS a.cookies && !cookieIsFile (a.cookies.getD "") then .exited 1
  else
    .completed (download_entries o (.inr a.url) outdir a.verbose a.cookies
      a.username a.password headers)

/-- Forget the two logging-suppression fields of an options dict. -/
def Opts.strip (x : Opts) : Opts :=
  { x with quiet := false, no_warnings := false }

/-- Forget the logging-suppression fields of every options dict recorded
in a trace. -/
def Trace.strip (t : Trace) : Trace :=
  { t with
    extractCalls := t.extractCalls.map fun p => (p.1, p.2.strip)
    downloadCalls := t.downloadCalls.map fun p => (p.1, p.2.strip) }

/-- Whether a stderr line is the per-entry download-failure line. -/
def isErrDownloadEv : ErrEv → Bool
  | .errDownload _ => true
  | _ => false

/-- Whether an oracle call raised. -/
def raised {α : Type} (r : Except String α) : Bool :=
  match r with
  | .error _ => true
  | .ok _ => false

/-- The title carried by a `Processando:` stdout line, if any. -/
def procTitle : OutEv → Option String
  | .processing t => some t
  | _ => none

/-- The classification rule exactly as claim C1 words it: VIDEO exactly
when some format descriptor's video-codec field is present and not equal
to `"none"`, or else the entry is flagged live or has a non-zero width
or height; AUDIO otherwise. -/
def classify_claimC1 (i : Info) : Bool :=
  ((i.formats.getD []).any fun f =>
      match f.vcodec with
      | some s => !(s == "none")
      | none => false)
  || truthyB i.is_live || truthyN i.width || truthyN i.height

/-- The classification rule in the amended wording of claim C1: as above
but additionally requiring the video-codec value to be non-empty. -/
def classify_spec (i : Info) : Bool :=
  ((i.formats.getD []).any fun f =>
      match f.vcodec with
      | some s => !(s == "") && !(s == "none")
      | none => false)
  || truthyB i.is_live || truthyN i.width || truthyN i.height

/-- An entry whose single format descriptor carries the present but empty
video-codec value `""`, with no live/width/height signal. -/
def exC1 : Info :=
  Info.mk (some [⟨some ""⟩]) none none none none none none none none

/-- An oracle whose non-downloading query always succeeds with a falsy
result and whose downloads always succeed. -/
def oOk : Oracle :=
  { extract := fun _ => .ok none, download := fun _ => .ok () }

/-- Playlist child entries for the three-entry batch scenario: each has a
non-empty `formats` list (so no detail refresh), a webpage URL and a
title. -/
def eBatch1 : Info :=
  Info.mk (some [⟨some "avc1"⟩]) none none none (some "u1") none (some "t1") none none

def eBatch2 : Info :=
  Info.mk (some [⟨some "avc1"⟩]) none none none (some "u2") none (some "t2") none none

def eBatch3 : Info :=
  Info.mk (some [⟨some "avc1"⟩]) none none none (some "u3") none (some "t3") none none

/-- A playlist metadata object holding the three batch entries. -/
def infoBatch : Info :=
  Info.mk none none none none none none none none
    (some [some eBatch1, some eBatch2, some eBatch3])

/-- An oracle whose download raises exactly for the second batch entry's
URL. -/
def oBatch : Oracle :=
  { extract := fun _ => .ok none
    download := fun us => if us = [some "u2"] then .error "boom" else .ok () }

/-- An oracle whose non-downloading query always raises. -/
def oRaise : Oracle :=
  { extract := fun _ => .error "network unreachable", download := fun _ => .ok () }

/-- An entry lacking `formats` and `webpage_url` but carrying both a `url`
and a bare identifier. -/
def eC5 : Info :=
  Info.mk none none none none none (some "u") none (some "x") none

/-- A detailed metadata object with an audio-only format list. -/
def dAudio : Info :=
  Info.mk (some [⟨some "none"⟩]) none none none none none none none none

/-- An oracle whose non-downloading query returns the detailed audio-only
object. -/
def oDetail : Oracle :=
  { extract := fun _ => .ok (some dAudio), download := fun _ => .ok () }

/-- A single non-playlist metadata object (no `entries` field). -/
def infoSingle : Info :=
  Info.mk (some [⟨some "avc1"⟩]) none none none (some "w") none (some "t") none none

/-- A playlist whose `entries` list holds one null slot around a child. -/
def infoPair : Info :=
  Info.mk none none none none none none none none
    (some [some eBatch1, none, some eBatch2])

/-- An entry whose `webpage_url` is present but empty while `url` is set:
line 142's `or` chain skips the falsy `webpage_url`. -/
def eC10 : Info :=
  Info.mk (some [⟨some "avc1"⟩]) none none none (some "") (some "u") none none none

/-- A metadata object wrapping `eC10` as a single entry. -/
def infoC10 : Info :=
  Info.mk (some [⟨some "avc1"⟩]) none none none (some "") (some "u") none none none

/-- `json.loads` behaviour on the concrete header strings exercised by the
spec's examples: the tag `hObj` decodes to the object of
`--headers '..A..1..B..2..'`, the tag `hArr` decodes to the array of
`--headers '[1,2]'`, and everything else (including the empty string)
raises `JSONDecodeError`. -/
def loadsX : String → Except String J :=
  fun s =>
    if s = "hObj" then .ok (.obj [("A", .str "1"), ("B", .num 2)])
    else if s = "hArr" then .ok (.arr [.num 1, .num 2])
    else .error "Expecting value: line 1 column 1 (char 0)"

/-- Command-line arguments with consent pre-given and no cookie file, the
`--headers` argument being the empty string. -/
def argsEmptyHeaders : CliArgs :=
  { url := "U", yes := true, headersArg := some "" }

/-- Command-line arguments passing the JSON-array headers string. -/
def argsArrHeaders : CliArgs :=
  { url := "U", yes := true, headersArg := some "hArr" }

/-! ## Helper lemmas -/

theorem trace_append_out (t u : Trace) : (Trace.append t u).out = t.out ++ u.out := rfl

theorem trace_append_err (t u : Trace) : (Trace.append t u).err = t.err ++ u.err := rfl

theorem trace_append_extractCalls (t u : Trace) :
    (Trace.append t u).extractCalls = t.extractCalls ++ u.extractCalls := rfl

theorem trace_append_downloadCalls (t u : Trace) :
    (Trace.append t u).downloadCalls = t.downloadCalls ++ u.downloadCalls := rfl

theorem processEntry_downloadCalls (o : Oracle) (outdir : String) (quiet : Bool)
    (cf un pw : Option String) (hd : Option (List (String × String))) (e : Info) :
    (processEntry o outdir quiet cf un pw hd e).downloadCalls =
      [([entryUrl e],
        if (classifyStep o (build_base_opts outdir quiet cf un pw hd) e).2.2 then
          videoOpts (build_base_opts outdir quiet cf un pw hd)
        else audioOpts (build_base_opts outdir quiet cf un pw hd))] := by
  unfold processEntry
  cases o.download [entryUrl e] <;> rfl

theorem processEntry_out (o : Oracle) (outdir : String) (quiet : Bool)
    (cf un pw : Option String) (hd : Option (List (String × String))) (e : Info) :
    (processEntry o outdir quiet cf un pw hd e).out.filterMap procTitle = [entryTitle e] := by
  unfold processEntry
  cases o.download [entryUrl e] <;>
    cases h2 : (classifyStep o (build_base_opts outdir quiet cf un pw hd) e).2.2 <;>
      simp [procTitle, h2]

theorem classifyStep_err_count (o : Oracle) (b : Opts) (e : Info) :
    (classifyStep o b e).1.countP isErrDownloadEv = 0 := by
  unfold classifyStep
  cases hf : e.formats with
  | none =>
      cases hx : o.extract (pyOrS (entryUrl e) e.id) with
      | error m => simp [hx, isErrDownloadEv]
      | ok d => cases d <;> simp [hx, isErrDownloadEv]
  | some l =>
      cases l with
      | nil =>
          cases hx : o.extract (pyOrS (entryUrl e) e.id) with
          | error m => simp [hx, isErrDownloadEv]
          | ok d => cases d <;> simp [hx, isErrDownloadEv]
      | cons f fs => simp

theorem processEntry_err_count (o : Oracle) (outdir : String) (quiet : Bool)
    (cf un pw : Option String) (hd : Option (List (String × String))) (e : Info) :
    (processEntry o outdir quiet cf un pw hd e).err.countP isErrDownloadEv =
      if raised (o.download [entryUrl e]) then 1 else 0 := by
  unfold processEntry
  cases hdl : o.download [entryUrl e] <;>
    simp [raised, List.countP_append, classifyStep_err_count, isErrDownloadEv,
      List.countP_cons]

theorem processEntries_downloadCalls (o : Oracle) (outdir : String) (quiet : Bool)
    (cf un pw : Option String) (hd : Option (List (String × String))) (es : List Info) :
    (processEntries o outdir quiet cf un pw hd es).downloadCalls.map Prod.fst =
      es.map fun e => [entryUrl e] := by
  induction es with
  | nil => rfl
  | cons e es ih =>
      simp [processEntries, trace_append_downloadCalls, processEntry_downloadCalls, ih]

theorem processEntries_err_count (o : Oracle) (outdir : String) (quiet : Bool)
    (cf un pw : Option String) (hd : Option (List (String × String))) (es : List Info) :
    (processEntries o outdir quiet cf un pw hd es).err.countP isErrDownloadEv =
      es.countP fun e => raised (o.download [entryUrl e]) := by
  induction es with
  | nil => rfl
  | cons e es ih =>
      simp [processEntries, trace_append_err, List.countP_append, List.countP_cons,
        processEntry_err_count, ih]
      cases hdl : raised (o.download [entryUrl e]) <;> simp [Nat.add_comm]

theorem processEntries_out (o : Oracle) (outdir : String) (quiet : Bool)
    (cf un pw : Option String) (hd : Option (List (String × String))) (es : List Info) :
    (processEntries o outdir quiet cf un pw hd es).out.filterMap procTitle =
      es.map entryTitle := by
  induction es with
  | nil => rfl
  | cons e es ih =>
      simp [processEntries, trace_append_out, List.filterMap_append, processEntry_out, ih]

theorem build_base_opts_strip (outdir : String) (q1 q2 : Bool)
    (cf un pw : Option String) (hd : Option (List (String × String))) :
    (build_base_opts outdir q1 cf un pw hd).strip =
      (build_base_opts outdir q2 cf un pw hd).strip := rfl

theorem videoOpts_strip (b : Opts) : (videoOpts b).strip = videoOpts b.strip := rfl

theorem audioOpts_strip (b : Opts) : (audioOpts b).strip = audioOpts b.strip := rfl

theorem classifyStep_q (o : Oracle) (outdir : String) (q1 q2 : Bool)
    (cf un pw : Option String) (hd : Option (List (String × String))) (e : Info) :
    (classifyStep o (build_base_opts outdir q1 cf un pw hd) e).1 =
      (classifyStep o (build_base_opts outdir q2 cf un pw hd) e).1 ∧
    (classifyStep o (build_base_opts outdir q1 cf un pw hd) e).2.1.map
        (fun p => (p.1, p.2.strip)) =
      (classifyStep o (build_base_opts outdir q2 cf un pw hd) e).2.1.map
        (fun p => (p.1, p.2.strip)) ∧
    (classifyStep o (build_base_opts outdir q1 cf un pw hd) e).2.2 =
      (classifyStep o (build_base_opts outdir q2 cf un pw hd) e).2.2 := by
  unfold classifyStep
  cases hf : e.formats with
  | none =>
      cases hx : o.extract (pyOrS (entryUrl e) e.id) with
      | error m => simp [hx, build_base_opts_strip outdir q1 q2]
      | ok d => cases d <;> simp [hx, build_base_opts_strip outdir q1 q2]
  | some l =>
      cases l with
      | nil =>
          cases hx : o.extract (pyOrS (entryUrl e) e.id) with
          | error m => simp [hx, build_base_opts_strip outdir q1 q2]
          | ok d => cases d <;> simp [hx, build_base_opts_strip outdir q1 q2]
      | cons f fs => simp

theorem processEntry_strip (o : Oracle) (outdir : String) (q1 q2 : Bool)
    (cf un pw : Option String) (hd : Option (List (String × String))) (e : Info) :
    (processEntry o outdir q1 cf un pw hd e).strip =
      (processEntry o outdir q2 cf un pw hd e).strip := by
  have h := classifyStep_q o outdir q1 q2 cf un pw hd e
  have hv2 := h.2.2
  unfold processEntry Trace.strip
  cases hdl : o.download [entryUrl e] <;>
    cases hv : (classifyStep o (build_base_opts outdir q1 cf un pw hd) e).2.2 <;>
      rw [hv] at hv2 <;>
        simp [hdl, hv, ← hv2, h.1, h.2.1, videoOpts_strip, audioOpts_strip,
          build_base_opts_strip outdir q1 q2]

theorem trace_strip_append (t u : Trace) :
    (Trace.append t u).strip = Trace.append t.strip u.strip := by
  simp [Trace.append, Trace.strip]

theorem processEntries_strip (o : Oracle) (outdir : String) (q1 q2 : Bool)
    (cf un pw : Option String) (hd : Option (List (String × String))) (es : List Info) :
    (processEntries o outdir q1 cf un pw hd es).strip =
      (processEntries o outdir q2 cf un pw hd es).strip := by
  induction es with
  | nil => rfl
  | cons e es ih =>
      simp only [processEntries, trace_strip_append, ih,
        processEntry_strip o outdir q1 q2 cf un pw hd e]

theorem pyOrNilL_getD (a : Option (List Format)) : pyOrNilL a = a.getD [] := by
  cases a with
  | none => rfl
  | some l => cases l <;> simp [pyOrNilL]

/-! ## Claim theorems -/

/-- Claim C1, counterexample: an entry whose only format descriptor has the
present but empty video-codec value `""` (which is not `"none"`) is
classified VIDEO by the claim's rule, while `has_video` skips the falsy
value and classifies it AUDIO. -/
theorem claim_C1_counterexample :
    classify_claimC1 exC1 = true ∧ has_video exC1 = false := by
  constructor <;> decide

/-- Claim C1 as amended: `has_video` returns VIDEO exactly when the
format-descriptor list contains a descriptor whose video-codec field is
present, non-empty and not `"none"`, or otherwise when the entry is
flagged live or has a non-zero width or height; AUDIO in every other
case, first match winning and no other field mattering. -/
theorem claim_C1_theorem (i : Info) : has_video i = classify_spec i := by
  have hfun : (fun f : Format => vcodecSignalsVideo f.vcodec) =
      fun f : Format =>
        match f.vcodec with
        | some s => !(s == "") && !(s == "none")
        | none => false := by
    funext f
    cases hv : f.vcodec <;> simp [vcodecSignalsVideo, hv]
  simp only [has_video, classify_spec, pyOrNilL_getD, hfun]
  cases hA : (i.formats.getD []).any
      (fun f : Format =>
        match f.vcodec with
        | some s => !(s == "") && !(s == "none")
        | none => false) <;>
    simp [hA]

/-- Claim C2, counterexample to the wording "logged to the error channel
together with that entry's title": in the three-entry batch where only
the second entry's download raises `boom`, the whole error channel is
the single `errDownload "boom"` line, whose interpolated data does not
include the failing entry's title `t2` (the title appears only on
stdout); the other two entries are still attempted in order. -/
theorem claim_C2_counterexample :
    (download_entries oBatch (.inl infoBatch) "d" false none none none none).err =
        [ErrEv.errDownload "boom"] ∧
    entryTitle eBatch2 = "t2" ∧
    ((download_entries oBatch (.inl infoBatch) "d" false none none none none).err.all
        fun ev => !(ErrEv.payload ev).contains "t2") = true ∧
    (download_entries oBatch (.inl infoBatch) "d" false none none none
        none).downloadCalls.map Prod.fst = [[some "u1"], [some "u2"], [some "u3"]] := by
  refine ⟨by decide, by decide, by decide, by decide⟩

/-- Claim C2 as amended: for every resolved entry sequence, a raising
download is caught and logged to the error channel (the entry's title
having been echoed to standard output, not to the error channel), and
the orchestrator still invokes the download of every entry in order:
the download invocations are exactly one per resolved entry in source
order, the number of download-failure lines equals the number of
entries whose download raises, and every entry's title is printed. -/
theorem claim_C2_theorem (o : Oracle) (outdir : String) (verbose : Bool)
    (cf un pw : Option String) (hd : Option (List (String × String))) (info : Info) :
    (download_entries o (.inl info) outdir verbose cf un pw hd).downloadCalls.map
        Prod.fst = (normalizeEntries info).map (fun e => [entryUrl e]) ∧
    (download_entries o (.inl info) outdir verbose cf un pw hd).err.countP
        isErrDownloadEv =
      (normalizeEntries info).countP (fun e => raised (o.download [entryUrl e])) ∧
    (download_entries o (.inl info) outdir verbose cf un pw hd).out.filterMap procTitle =
      (normalizeEntries info).map entryTitle := by
  refine ⟨?_, ?_, ?_⟩ <;>
    simp [download_entries, processEntries_downloadCalls, processEntries_err_count,
      processEntries_out]

/-- Claim C3: on top of any base options, the VIDEO update sets the
combined-or-fallback format expression and both MP4 merge/convert
directives, the AUDIO update sets the audio-only-or-fallback format
expression and the MP3 extraction directive at 192 kbps, and every
download invocation issued by the per-entry loop carries exactly the
configuration matching its classification. -/
theorem claim_C3_theorem (o : Oracle) (outdir : String) (quiet : Bool)
    (cf un pw : Option String) (hd : Option (List (String × String))) (e : Info) :
    (videoOpts (build_base_opts outdir quiet cf un pw hd)).format =
        some "bestvideo+bestaudio/best" ∧
    (videoOpts (build_base_opts outdir quiet cf un pw hd)).merge_output_format =
        some "mp4" ∧
    (videoOpts (build_base_opts outdir quiet cf un pw hd)).postprocessors =
        some [PP.videoConvertor "mp4"] ∧
    (audioOpts (build_base_opts outdir quiet cf un pw hd)).format =
        some "bestaudio/best" ∧
    (audioOpts (build_base_opts outdir quiet cf un pw hd)).postprocessors =
        some [PP.extractAudio "mp3" "192"] ∧
    (processEntry o outdir quiet cf un pw hd e).downloadCalls =
      [([entryUrl e],
        if (classifyStep o (build_base_opts outdir quiet cf un pw hd) e).2.2 then
          videoOpts (build_base_opts outdir quiet cf un pw hd)
        else audioOpts (build_base_opts outdir quiet cf un pw hd))] :=
  ⟨rfl, rfl, rfl, rfl, rfl, processEntry_downloadCalls o outdir quiet cf un pw hd e⟩

/-- Claim C4: when the top-level non-downloading query for the input URL
raises, or returns a falsy result, the run's whole trace is just the
error-channel report and the single initial query: stdout is empty, no
per-entry query and no download invocation occurs. -/
theorem claim_C4_theorem (o : Oracle) (u : String) (outdir : String) (verbose : Bool)
    (cf un pw : Option String) (hd : Option (List (String × String))) :
    (∀ m, o.extract (some u) = .error m →
      download_entries o (.inr u) outdir verbose cf un pw hd =
        { err := [ErrEv.errInitialExtract m],
          extractCalls := [(some u, build_base_opts outdir (!verbose) cf un pw hd)] }) ∧
    (o.extract (some u) = .ok none →
      download_entries o (.inr u) outdir verbose cf un pw hd =
        { err := [ErrEv.errNoInfo],
          extractCalls := [(some u, build_base_opts outdir (!verbose) cf un pw hd)] }) := by
  constructor
  · intro m hm
    simp [download_entries, hm]
  · intro hm
    simp [download_entries, hm]

/-- Witness for claim C4 at a concrete always-raising oracle. -/
theorem claim_C4_witness :
    download_entries oRaise (.inr "X") "d" false none none none none =
      { err := [ErrEv.errInitialExtract "network unreachable"],
        extractCalls := [(some "X", build_base_opts "d" true none none none none)] } :=
  (claim_C4_theorem oRaise "X" "d" false none none none none).1 "network unreachable" rfl

theorem processEntry_extractCalls (o : Oracle) (outdir : String) (quiet : Bool)
    (cf un pw : Option String) (hd : Option (List (String × String))) (e : Info) :
    (processEntry o outdir quiet cf un pw hd e).extractCalls =
      (classifyStep o (build_base_opts outdir quiet cf un pw hd) e).2.1 := by
  unfold processEntry
  cases o.download [entryUrl e] <;> rfl

theorem processEntry_err (o : Oracle) (outdir : String) (quiet : Bool)
    (cf un pw : Option String) (hd : Option (List (String × String))) (e : Info) :
    (processEntry o outdir quiet cf un pw hd e).err =
      (classifyStep o (build_base_opts outdir quiet cf un pw hd) e).1 ++
        (match o.download [entryUrl e] with
         | .ok _ => []
         | .error m => [ErrEv.errDownload m]) := by
  unfold processEntry
  cases hdl : o.download [entryUrl e] <;> simp [hdl]

theorem classifyStep_falsy (o : Oracle) (b : Opts) (e : Info)
    (he : e.formats = none ∨ e.formats = some []) :
    classifyStep o b e =
      match o.extract (pyOrS (entryUrl e) e.id) with
      | .error m => ([ErrEv.errAnalyze m], [(pyOrS (entryUrl e) e.id, b)], true)
      | .ok none => ([ErrEv.errAnalyze noneGetMsg], [(pyOrS (entryUrl e) e.id, b)], true)
      | .ok (some d) => ([], [(pyOrS (entryUrl e) e.id, b)], has_video d) := by
  rcases he with he | he <;> simp [classifyStep, he]

theorem classifyStep_truthy (o : Oracle) (b : Opts) (e : Info)
    (f : Format) (fs : List Format) (he : e.formats = some (f :: fs)) :
    classifyStep o b e = ([], [], has_video e) := by
  simp [classifyStep, he]

/-- Claim C5, counterexample to "webpage URL preferred, bare identifier as
the fallback": for an entry without `formats` and without
`webpage_url` but with both a `url` and an identifier, the secondary
query uses the `url` field, not the identifier. -/
theorem claim_C5_counterexample :
    eC5.webpage_url = none ∧ eC5.id = some "x" ∧
    (processEntry oDetail "d" true none none none none eC5).extractCalls.map Prod.fst =
      [some "u"] ∧
    (some "u" : Option String) ≠ some "x" := by
  refine ⟨rfl, rfl, by decide, by decide⟩

/-- Claim C5 as amended: for every entry whose format-descriptor list is
falsy (absent or empty), exactly one secondary non-downloading query is
performed with the entry's webpage URL, else its `url` field, else its
bare identifier; a raising query logs its cause and falls back to the
VIDEO configuration, a successful query is used only to classify (the
download invocation target is the original entry's URL in every case);
entries with a non-empty format-descriptor list trigger no secondary
query. -/
theorem claim_C5_theorem (o : Oracle) (outdir : String) (quiet : Bool)
    (cf un pw : Option String) (hd : Option (List (String × String))) :
    (∀ e : Info, e.formats = none ∨ e.formats = some [] →
      (processEntry o outdir quiet cf un pw hd e).extractCalls =
        [(pyOrS (entryUrl e) e.id, build_base_opts outdir quiet cf un pw hd)] ∧
      (∀ m, o.extract (pyOrS (entryUrl e) e.id) = .error m →
        (processEntry o outdir quiet cf un pw hd e).err.head? =
          some (ErrEv.errAnalyze m) ∧
        (processEntry o outdir quiet cf un pw hd e).downloadCalls =
          [([entryUrl e], videoOpts (build_base_opts outdir quiet cf un pw hd))]) ∧
      (∀ d, o.extract (pyOrS (entryUrl e) e.id) = .ok (some d) →
        (processEntry o outdir quiet cf un pw hd e).downloadCalls =
          [([entryUrl e],
            if has_video d then videoOpts (build_base_opts outdir quiet cf un pw hd)
            else audioOpts (build_base_opts outdir quiet cf un pw hd))])) ∧
    (∀ (e : Info) (f : Format) (fs : List Format), e.formats = some (f :: fs) →
      (processEntry o outdir quiet cf un pw hd e).extractCalls = []) := by
  constructor
  · intro e he
    have hc := classifyStep_falsy o (build_base_opts outdir quiet cf un pw hd) e he
    refine ⟨?_, ?_, ?_⟩
    · rw [processEntry_extractCalls, hc]
      cases hx : o.extract (pyOrS (entryUrl e) e.id) with
      | error m => simp [hx]
      | ok d => cases d <;> simp [hx]
    · intro m hm
      constructor
      · rw [processEntry_err, hc, hm]
        cases o.download [entryUrl e] <;> rfl
      · rw [processEntry_downloadCalls, hc, hm]
        simp
    · intro d hdm
      rw [processEntry_downloadCalls, hc, hdm]
  · intro e f fs he
    rw [processEntry_extractCalls, classifyStep_truthy o _ e f fs he]

/-- Witness for claim C5: a formats-less entry whose refresh raises is
queried once on its `url`, logged, and downloaded with the VIDEO
configuration; an entry with a non-empty format list is never
re-queried. -/
theorem claim_C5_witness :
    (processEntry oRaise "d" true none none none none eC5).extractCalls =
      [(some "u", build_base_opts "d" true none none none none)] ∧
    (processEntry oRaise "d" true none none none none eC5).err.head? =
      some (ErrEv.errAnalyze "network unreachable") ∧
    (processEntry oRaise "d" true none none none none eC5).downloadCalls =
      [([some "u"], videoOpts (build_base_opts "d" true none none none none))] ∧
    (processEntry oDetail "d" true none none none none eBatch1).extractCalls = [] := by
  have h := (claim_C5_theorem oRaise "d" true none none none none).1 eC5 (Or.inl rfl)
  have h2 := (h.2.1 "network unreachable" rfl)
  exact ⟨h.1, h2.1, h2.2,
    (claim_C5_theorem oDetail "d" true none none none none).2 eBatch1 ⟨some "avc1"⟩ [] rfl⟩

/-- Claim C6: when the metadata object exposes a truthy (non-empty)
child-entries field, the resolved sequence is exactly that field's
non-null entries in source order (duplicates kept, nothing reordered);
otherwise it is the single object wrapped in a one-element sequence. -/
theorem claim_C6_theorem :
    (∀ (info : Info) (es : List (Option Info)), info.entries = some es → es ≠ [] →
      normalizeEntries info = es.filterMap id) ∧
    (∀ info : Info, info.entries = none ∨ info.entries = some [] →
      normalizeEntries info = [info]) := by
  constructor
  · intro info es he hne
    cases es with
    | nil => exact absurd rfl hne
    | cons e es => simp [normalizeEntries, he]
  · intro info he
    rcases he with he | he <;> simp [normalizeEntries, he]

/-- Witness for claim C6: a playlist with a null slot resolves to its two
non-null children in order; an object without child entries resolves to
itself alone. -/
theorem claim_C6_witness :
    normalizeEntries infoPair = [eBatch1, eBatch2] ∧
    normalizeEntries infoSingle = [infoSingle] := by
  constructor
  · exact (claim_C6_theorem.1 infoPair [some eBatch1, none, some eBatch2] rfl
      (List.cons_ne_nil _ _)).trans rfl
  · exact claim_C6_theorem.2 infoSingle (Or.inl rfl)

/-- Claim C7, counterexample to "cookie file path ... copied through
verbatim exactly when present": a present-but-empty cookie file path is
not copied through; the configuration omits the key. -/
theorem claim_C7_counterexample :
    (build_base_opts "downloads" true (some "") none none none).cookiefile = none ∧
    (build_base_opts "downloads" true (some "") none none none).cookiefile ≠ some "" := by
  refine ⟨by decide, by decide⟩

/-- Claim C7 as amended: every built configuration sets the output path
template `outdir/<title> - <id>.<ext>`, mirrors the verbosity flag into
both logging-suppression fields, and enables playlist-item error
tolerance; cookie file path, username, password and header map are
copied through verbatim exactly when present and truthy (non-empty),
and otherwise the key is omitted entirely — a present-but-empty value
is omitted like an absent one. -/
theorem claim_C7_theorem (outdir : String) (verbose : Bool)
    (cf un pw : Option String) (hd : Option (List (String × String))) :
    (build_base_opts outdir (!verbose) cf un pw hd).outtmpl =
        pathJoin outdir "%(title)s - %(id)s.%(ext)s" ∧
    (build_base_opts outdir (!verbose) cf un pw hd).quiet = !verbose ∧
    (build_base_opts outdir (!verbose) cf un pw hd).no_warnings = !verbose ∧
    (build_base_opts outdir (!verbose) cf un pw hd).ignoreerrors = true ∧
    ((∀ s, cf = some s → s ≠ "" →
        (build_base_opts outdir (!verbose) cf un pw hd).cookiefile = some s) ∧
      (cf = none ∨ cf = some "" →
        (build_base_opts outdir (!verbose) cf un pw hd).cookiefile = none)) ∧
    ((∀ s, un = some s → s ≠ "" →
        (build_base_opts outdir (!verbose) cf un pw hd).username = some s) ∧
      (un = none ∨ un = some "" →
        (build_base_opts outdir (!verbose) cf un pw hd).username = none)) ∧
    ((∀ s, pw = some s → s ≠ "" →
        (build_base_opts outdir (!verbose) cf un pw hd).password = some s) ∧
      (pw = none ∨ pw = some "" →
        (build_base_opts outdir (!verbose) cf un pw hd).password = none)) ∧
    ((∀ l, hd = some l → l ≠ [] →
        (build_base_opts outdir (!verbose) cf un pw hd).http_headers = some l) ∧
      (hd = none ∨ hd = some [] →
        (build_base_opts outdir (!verbose) cf un pw hd).http_headers = none)) := by
  refine ⟨rfl, rfl, rfl, rfl, ⟨?_, ?_⟩, ⟨?_, ?_⟩, ⟨?_, ?_⟩, ⟨?_, ?_⟩⟩
  · intro s hs hne; simp [build_base_opts, truthyS, hs, hne]
  · intro h; rcases h with h | h <;> simp [build_base_opts, truthyS, h]
  · intro s hs hne; simp [build_base_opts, truthyS, hs, hne]
  · intro h; rcases h with h | h <;> simp [build_base_opts, truthyS, h]
  · intro s hs hne; simp [build_base_opts, truthyS, hs, hne]
  · intro h; rcases h with h | h <;> simp [build_base_opts, truthyS, h]
  · intro l hl hne; simp [build_base_opts, truthyH, hl, hne]
  · intro h; rcases h with h | h <;> simp [build_base_opts, truthyH, h]

/-- Witness for claim C7: a truthy cookie path and header map are copied
verbatim; an absent username and an empty password are both omitted. -/
theorem claim_C7_witness :
    (build_base_opts "downloads" false (some "c.txt") none (some "")
        (some [("A", "1")])).cookiefile = some "c.txt" ∧
    (build_base_opts "downloads" false (some "c.txt") none (some "")
        (some [("A", "1")])).http_headers = some [("A", "1")] ∧
    (build_base_opts "downloads" false (some "c.txt") none (some "")
        (some [("A", "1")])).username = none ∧
    (build_base_opts "downloads" false (some "c.txt") none (some "")
        (some [("A", "1")])).password = none := by
  have h := claim_C7_theorem "downloads" true (some "c.txt") none (some "")
    (some [("A", "1")])
  exact ⟨h.2.2.2.2.1.1 "c.txt" rfl (by decide),
    h.2.2.2.2.2.2.2.1 [("A", "1")] rfl (by decide),
    h.2.2.2.2.2.1.2 (Or.inl rfl),
    h.2.2.2.2.2.2.1.2 (Or.inr rfl)⟩

theorem upsert_notMem (k v : String) (l : List (String × String))
    (h : ∀ p ∈ l, p.1 ≠ k) : upsert k v l = l ++ [(k, v)] := by
  induction l with
  | nil => rfl
  | cons p t ih =>
      have hp : ¬p.1 = k := h p (List.mem_cons_self p t)
      simp [upsert, hp, ih fun q hq => h q (List.mem_cons_of_mem p hq)]

theorem dictComp_go (kvs : List (String × J)) (acc : List (String × String))
    (hnd : (kvs.map Prod.fst).Nodup)
    (hacc : ∀ p ∈ acc, p.1 ∉ kvs.map Prod.fst) :
    kvs.foldl (fun acc kv => upsert kv.1 (pyStr kv.2) acc) acc =
      acc ++ kvs.map fun kv => (kv.1, pyStr kv.2) := by
  induction kvs generalizing acc with
  | nil => simp
  | cons kv t ih =>
      simp only [List.map_cons, List.nodup_cons] at hnd
      have hacc2 : ∀ p ∈ acc, ¬p.1 = kv.1 ∧ p.1 ∉ t.map Prod.fst := by
        intro p hp
        have := hacc p hp
        simp only [List.map_cons, List.mem_cons, not_or] at this
        exact this
      simp only [List.foldl_cons]
      rw [upsert_notMem kv.1 (pyStr kv.2) acc fun p hp => (hacc2 p hp).1]
      rw [ih (acc ++ [(kv.1, pyStr kv.2)]) hnd.2 ?_]
      · simp
      · intro p hp
        rcases List.mem_append.mp hp with hp | hp
        · exact (hacc2 p hp).2
        · simp only [List.mem_singleton] at hp
          subst hp
          exact hnd.1

theorem dictComp_nodup (kvs : List (String × J)) (hnd : (kvs.map Prod.fst).Nodup) :
    dictComp kvs = kvs.map fun kv => (kv.1, pyStr kv.2) := by
  have h := dictComp_go kvs [] hnd (by simp)
  simpa [dictComp] using h

/-- Claim C8, counterexample to "malformed JSON aborts with exit status 1":
the empty string is not valid JSON (`json.loads` raises on it), yet an
empty `--headers` argument short-circuits before parsing and the run
proceeds instead of exiting. -/
theorem claim_C8_counterexample :
    raised (loadsX "") = true ∧
    mainRun loadsX oOk "" (fun _ => false) (fun s => s) argsEmptyHeaders ≠
      .exited 1 := by
  refine ⟨rfl, by decide⟩

/-- Claim C8 as amended: for every non-empty `--headers` argument, a
decoded JSON object is returned with every key kept and every value
coerced to string (keys of a decoded object being unique), while a
decoded non-object or a decoding error aborts the run with exit status
1 before the pipeline is invoked; an empty or absent argument is
treated as no headers and does not abort. -/
theorem claim_C8_theorem (loads : String → Except String J) (o : Oracle)
    (ca : String) (cif : String → Bool) (ap : String → String) (a : CliArgs)
    (s : String) (hs : a.headersArg = some s) (hne : s ≠ "") :
    (∀ kvs, loads s = .ok (.obj kvs) →
      parse_headers loads a.headersArg = some (dictComp kvs) ∧
      ((kvs.map Prod.fst).Nodup →
        parse_headers loads a.headersArg =
          some (kvs.map fun kv => (kv.1, pyStr kv.2)))) ∧
    (∀ v, loads s = .ok v → (∀ kvs, v ≠ J.obj kvs) →
      mainRun loads o ca cif ap a = .exited 1) ∧
    (∀ m, loads s = .error m → mainRun loads o ca cif ap a = .exited 1) := by
  refine ⟨?_, ?_, ?_⟩
  · intro kvs hk
    have hph : parse_headers loads a.headersArg = some (dictComp kvs) := by
      simp [parse_headers, hs, hne, hk]
    exact ⟨hph, fun hnd => hph.trans (by rw [dictComp_nodup kvs hnd])⟩
  · intro v hv hno
    have hph : parse_headers loads (some s) = none := by
      cases v with
      | obj kvs => exact absurd rfl (hno kvs)
      | null => simp [parse_headers, hne, hv]
      | bool b => simp [parse_headers, hne, hv]
      | num n => simp [parse_headers, hne, hv]
      | str t => simp [parse_headers, hne, hv]
      | arr xs => simp [parse_headers, hne, hv]
    simp [mainRun, hph, hs, truthyS, hne]
  · intro m hm
    have hph : parse_headers loads (some s) = none := by
      simp [parse_headers, hne, hm]
    simp [mainRun, hph, hs, truthyS, hne]

/-- Witness for claim C8: the spec's object example decodes and coerces to
the expected header map, and the JSON-array example aborts with exit
status 1. -/
theorem claim_C8_witness :
    parse_headers loadsX (some "hObj") = some [("A", "1"), ("B", "2")] ∧
    mainRun loadsX oOk "" (fun _ => false) (fun s => s) argsArrHeaders = .exited 1 := by
  constructor
  · have h := ((claim_C8_theorem loadsX oOk "" (fun _ => false) (fun s => s)
        { url := "U", yes := true, headersArg := some "hObj" } "hObj" rfl
        (by decide)).1 [("A", J.str "1"), ("B", J.num 2)] rfl).2 (by decide)
    exact h.trans (by decide)
  · exact (claim_C8_theorem loadsX oOk "" (fun _ => false) (fun s => s)
      argsArrHeaders "hArr" rfl (by decide)).2.1 (J.arr [J.num 1, J.num 2]) rfl
      (fun kvs h => J.noConfusion h)

/-- Claim C9: two runs differing only in the verbosity flag produce
identical traces after the `quiet` and `no_warnings` fields of every
recorded configuration (initial metadata-query configuration and every
per-entry download configuration alike) are forgotten: every other
configuration field, every oracle call and its argument, and all output
are the same. -/
theorem claim_C9_theorem (o : Oracle) (iou : Sum Info String) (outdir : String)
    (cf un pw : Option String) (hd : Option (List (String × String))) :
    (download_entries o iou outdir true cf un pw hd).strip =
      (download_entries o iou outdir false cf un pw hd).strip := by
  cases iou with
  | inl info =>
      simp only [download_entries]
      exact processEntries_strip o outdir (!true) (!false) cf un pw hd
        (normalizeEntries info)
  | inr u =>
      simp only [download_entries]
      cases hx : o.extract (some u) with
      | error m =>
          simp [hx, Trace.strip, build_base_opts_strip outdir false true]
      | ok d =>
          cases d with
          | none => simp [hx, Trace.strip, build_base_opts_strip outdir false true]
          | some info =>
              simp only [hx, trace_strip_append,
                processEntries_strip o outdir (!true) (!false) cf un pw hd
                  (normalizeEntries info)]
              simp [Trace.strip, build_base_opts_strip outdir false true]

/-- Claim C10, counterexample to "the entry's webpage URL (or, when
absent, its url field)": an entry whose `webpage_url` is present but
empty is downloaded via its `url` field, not via the present
`webpage_url` value. -/
theorem claim_C10_counterexample :
    infoC10.webpage_url = some "" ∧
    (download_entries oOk (.inl infoC10) "d" false none none none
        none).downloadCalls.map Prod.fst = [[some "u"]] ∧
    (some "" : Option String) ≠ some "u" := by
  refine ⟨rfl, by decide, by decide⟩

/-- Claim C10 as amended: every non-null resolved entry gets exactly one
download invocation, in order, passing a one-element list whose element
is the entry's webpage URL when that field is truthy (present and
non-empty) and otherwise the entry's `url` field verbatim (null when
absent); this holds for every oracle, so no classification-stage
outcome ever skips or duplicates an entry's download attempt. -/
theorem claim_C10_theorem (o : Oracle) (outdir : String) (verbose : Bool)
    (cf un pw : Option String) (hd : Option (List (String × String))) (info : Info) :
    (download_entries o (.inl info) outdir verbose cf un pw hd).downloadCalls.map
        Prod.fst = (normalizeEntries info).map (fun e => [entryUrl e]) ∧
    (∀ e : Info,
      (∀ s, e.webpage_url = some s → s ≠ "" → entryUrl e = some s) ∧
      (e.webpage_url = none ∨ e.webpage_url = some "" → entryUrl e = e.url)) := by
  constructor
  · simp [download_entries, processEntries_downloadCalls]
  · intro e
    constructor
    · intro s hs hne
      simp [entryUrl, pyOrS, truthyS, hs, hne]
    · intro h
      rcases h with h | h <;> simp [entryUrl, pyOrS, truthyS, h]

/-- Witness for claim C10: the three-entry batch is downloaded once per
entry in order, and the URL selection is as described on concrete
entries. -/
theorem claim_C10_witness :
    (download_entries oOk (.inl infoBatch) "d" false none none none
        none).downloadCalls.map Prod.fst = [[some "u1"], [some "u2"], [some "u3"]] ∧
    entryUrl eBatch1 = some "u1" ∧
    entryUrl eC5 = some "u" := by
  refine ⟨?_, ?_, ?_⟩
  · exact ((claim_C10_theorem oOk "d" false none none none none infoBatch).1).trans (by decide)
  · exact ((claim_C10_theorem oOk "d" false none none none none infoBatch).2 eBatch1).1
      "u1" rfl (by decide)
  · exact (((claim_C10_theorem oOk "d" false none none none none infoBatch).2 eC5).2
      (Or.inl rfl)).trans rfl
